import Mathlib

/-!
Shallow embedding of the Express employee-management service
(`src/unnamed/part_001`, first document: the variant with MySQL storage,
zod validation, bcrypt credentials, JWT auth, rate limiting and CORS).

Route handlers are embedded as pure functions from the database state and
the request data to an HTTP response (and the successor state for mutating
routes).  External collaborators are modelled at their interface boundary:

* the MySQL store is a pair of in-memory tables (`users` with a unique
  email constraint, `employees` with an auto-increment id); a query that
  rejects (storage unavailable) is modelled by the `StorageOutcome.fail`
  oracle carrying the thrown error's message, since the handlers only
  observe the rejection through `catch (error)`;
* `bcryptjs`: a digest records the salt and the plaintext it was derived
  from (one-way in the real system); `compare` succeeds exactly when the
  plaintext matches;
* `jsonwebtoken`: a signed token carries the payload claims and the secret
  used to sign it; `verify` checks the signature first and then reports
  `expired` when the clock has reached the `exp` claim, matching the
  library's `clockTimestamp >= exp` check.  Times are in seconds.
-/

deriving instance DecidableEq for Except

namespace EmployeeMS

/-- One zod validation issue: the offending field's path and its message
(`error.errors` entries, as serialised into the `details` of a 400 body). -/
structure ZodIssue where
  path : String
  message : String
deriving DecidableEq, Repr

/-- A row of the `employees` table (`id INT AUTO_INCREMENT PRIMARY KEY,
name VARCHAR NOT NULL, position VARCHAR NOT NULL`). -/
structure EmployeeRow where
  id : Nat
  name : String
  position : String
deriving DecidableEq, Repr

/-- JSON values as they appear in this service's response bodies.  The
bodies are flat objects whose fields are numbers, strings, the zod issue
list of a validation failure, or the employee row list of `GET /employees`;
the two list shapes are kept as dedicated constructors. -/
inductive JVal where
  | num (n : Nat)
  | str (s : String)
  | issues (l : List ZodIssue)
  | rows (l : List EmployeeRow)
deriving DecidableEq, Repr

/-- An HTTP response: the status code and the JSON body, a flat object kept
as its ordered field list. -/
structure HttpResponse where
  status : Nat
  body : List (String × JVal)
deriving DecidableEq, Repr

/-- Model of a `bcryptjs` digest: `hash` embeds a randomized per-call salt,
and (abstractly) the plaintext it was computed from; real digests are
one-way but `compare` behaves as if the source plaintext were recoverable. -/
structure BcryptDigest where
  salt : Nat
  source : String
deriving DecidableEq, Repr

/-- `bcrypt.hash(password, 10)`: the salt is an input since it is drawn
randomly per call. -/
def bcryptHash (password : String) (salt : Nat) : BcryptDigest :=
  ⟨salt, password⟩

/-- `bcrypt.compare(password, digest)`: true exactly when `digest` was
produced from `password`. -/
def bcryptCompare (password : String) (digest : BcryptDigest) : Bool :=
  password == digest.source

/-- A row of the `users` table (`id INT AUTO_INCREMENT PRIMARY KEY,
email VARCHAR UNIQUE NOT NULL, password VARCHAR NOT NULL`). -/
structure UserRow where
  id : Nat
  email : String
  password : BcryptDigest
deriving DecidableEq, Repr

/-- The MySQL database state: both tables plus their auto-increment
counters. -/
structure DB where
  users : List UserRow
  nextUserId : Nat
  employees : List EmployeeRow
  nextEmployeeId : Nat
deriving DecidableEq, Repr

def emptyDB : DB := ⟨[], 1, [], 1⟩

/-- Whether an awaited `pool.query` resolves or rejects; on rejection the
handlers observe only the thrown `Error`, whose `.message` is carried
here. -/
inductive StorageOutcome where
  | ok
  | fail (message : String)
deriving DecidableEq, Repr

/-- `SELECT * FROM users WHERE email = ?` (parameter-bound). -/
def usersFindByEmail (db : DB) (email : String) : List UserRow :=
  db.users.filter (fun u => u.email == email)

/-- `INSERT INTO users (email, password) VALUES (?, ?)`: the table's
UNIQUE constraint on `email` is the final arbiter, so the insert rejects
with a duplicate-key error when the email is already present at insert
time. -/
def usersInsert (db : DB) (email : String) (pwd : BcryptDigest) : Except Unit DB :=
  if db.users.any (fun u => u.email == email) then
    .error ()
  else
    .ok { db with
          users := db.users ++ [⟨db.nextUserId, email, pwd⟩],
          nextUserId := db.nextUserId + 1 }

/-! ### zod schemas -/

/-- An untyped request body for the credential routes: each field is
present with a string value or absent. -/
structure CredBody where
  email : Option String
  password : Option String
deriving DecidableEq, Repr

/-- An untyped request body for the employee routes. -/
structure EmployeeBody where
  name : Option String
  position : Option String
deriving DecidableEq, Repr

/-- Split a character list at every occurrence of the separator `c`;
always returns at least one (possibly empty) piece. -/
def splitOnChar (c : Char) : List Char → List (List Char)
  | [] => [[]]
  | x :: xs =>
      match splitOnChar c xs with
      | [] => if x = c then [[], []] else [[x]]
      | piece :: rest =>
          if x = c then [] :: piece :: rest else (x :: piece) :: rest

/-- Model of `z.string().email()`: the RFC-shaped check at the level the
handlers use it — one `@` separating a non-empty local part from a domain
of at least two non-empty dot-separated labels. -/
def isEmailShaped (s : String) : Bool :=
  match splitOnChar '@' s.data with
  | [lp, domain] =>
      lp.length > 0 &&
      decide ((splitOnChar '.' domain).length ≥ 2) &&
      (splitOnChar '.' domain).all (fun lbl => lbl.length > 0)
  | _ => false

/-- Issues for one `z.string().min(len, msg)` field: a missing field is an
invalid-type "Required" issue, a present string shorter than `len` gets
`msg`; zod evaluates every field of a `z.object` and accumulates. -/
def checkStringMin (field : String) (len : Nat) (msg : String) :
    Option String → List ZodIssue
  | none => [⟨field, "Required"⟩]
  | some s => if s.length < len then [⟨field, msg⟩] else []

/-- All issues of `userSchema = z.object({email: z.string().email(),
password: z.string().min(6)})`. -/
def userIssues (b : CredBody) : List ZodIssue :=
  (match b.email with
   | none => [⟨"email", "Required"⟩]
   | some e => if isEmailShaped e then [] else [⟨"email", "Invalid email"⟩]) ++
  checkStringMin "password" 6 "String must contain at least 6 character(s)" b.password

/-- `userSchema.parse(req.body)`: the normalized record, or a thrown
`ZodError` carrying every accumulated issue. -/
def userSchemaParse (b : CredBody) : Except (List ZodIssue) (String × String) :=
  match b.email, b.password with
  | some e, some p =>
      if userIssues b = [] then .ok (e, p) else .error (userIssues b)
  | _, _ => .error (userIssues b)

/-- All issues of the login body schema `z.object({email:
z.string().email(), password: z.string().min(1, "Password cannot be
empty")})`. -/
def loginIssues (b : CredBody) : List ZodIssue :=
  (match b.email with
   | none => [⟨"email", "Required"⟩]
   | some e => if isEmailShaped e then [] else [⟨"email", "Invalid email"⟩]) ++
  checkStringMin "password" 1 "Password cannot be empty" b.password

/-- The login body parse. -/
def loginSchemaParse (b : CredBody) : Except (List ZodIssue) (String × String) :=
  match b.email, b.password with
  | some e, some p =>
      if loginIssues b = [] then .ok (e, p) else .error (loginIssues b)
  | _, _ => .error (loginIssues b)

/-- All issues of `employeeSchema = z.object({name: z.string().min(2,
"Name must be at least 2 characters"), position: z.string().min(2,
"Position cannot be empty")})`. -/
def employeeIssues (b : EmployeeBody) : List ZodIssue :=
  checkStringMin "name" 2 "Name must be at least 2 characters" b.name ++
  checkStringMin "position" 2 "Position cannot be empty" b.position

/-- `employeeSchema.parse(req.body)`. -/
def employeeSchemaParse (b : EmployeeBody) : Except (List ZodIssue) (String × String) :=
  match b.name, b.position with
  | some n, some p =>
      if employeeIssues b = [] then .ok (n, p) else .error (employeeIssues b)
  | _, _ => .error (employeeIssues b)

/-! ### jsonwebtoken -/

/-- A well-formed signed token: the `{userId}` payload, the `iat` and
`exp` claims, and (modelling an unforgeable MAC) the secret it was signed
with. -/
structure Token where
  userId : Nat
  iat : Nat
  exp : Nat
  sig : String
deriving DecidableEq, Repr

/-- `jwt.sign({userId}, secret, {expiresIn: '1h'})` at clock time `now`:
`exp = iat + 3600` seconds. -/
def jwtSign (userId : Nat) (secret : String) (now : Nat) : Token :=
  ⟨userId, now, now + 3600, secret⟩

/-- What stands after `Bearer ` in the authorization header: either a
structurally well-formed token or a string that does not parse as a JWT. -/
inductive TokenCandidate where
  | wellFormed (t : Token)
  | malformed (s : String)
deriving DecidableEq, Repr

/-- Outcome of `jwt.verify(token, secret)`: the decoded payload, a
`JsonWebTokenError` (structural malformation or signature mismatch), or a
`TokenExpiredError`. -/
inductive VerifyResult where
  | valid (userId : Nat)
  | invalid
  | expired
deriving DecidableEq, Repr

/-- `jwt.verify`: signature first, then expiry; the library reports
expired when `clockTimestamp >= exp`. -/
def jwtVerify (c : TokenCandidate) (secret : String) (now : Nat) : VerifyResult :=
  match c with
  | .malformed _ => .invalid
  | .wellFormed t =>
      if t.sig ≠ secret then .invalid
      else if t.exp ≤ now then .expired
      else .valid t.userId

/-- Model of the serialised compact form placed in the login response's
`token` field. -/
def tokenString (t : Token) : String :=
  String.intercalate "." [toString t.userId, toString t.iat, toString t.exp, t.sig]

/-- Outcome of the `authenticate` middleware: either it already answered
(the route handler is never reached) or it granted access with the decoded
user id. -/
inductive AuthOutcome where
  | denied (resp : HttpResponse)
  | granted (userId : Nat)
deriving DecidableEq, Repr

/-- The `authenticate` middleware (source lines 56-67): a missing token is
401 "Access denied"; any `jwt.verify` throw — invalid signature,
malformation or expiry alike — lands in the catch and is answered with
400 "Invalid token". -/
def authenticate (header : Option TokenCandidate) (secret : String) (now : Nat) :
    AuthOutcome :=
  match header with
  | none => .denied ⟨401, [("error", .str "Access denied")]⟩
  | some c =>
      match jwtVerify c secret now with
      | .valid uid => .granted uid
      | .invalid => .denied ⟨400, [("error", .str "Invalid token")]⟩
      | .expired => .denied ⟨400, [("error", .str "Invalid token")]⟩

/-! ### POST /register -/

/-- The `POST /register` handler (source lines 141-166).  To expose the
check-then-insert race, the `SELECT` runs against `checkDb` and the
`INSERT` against `insertDb`; a sequential request has `checkDb = insertDb`.
The handler's catch block has no `ZodError` branch: every throw — a
validation failure as well as a rejected insert — is answered with
500 "Registration failed". -/
def registerHandler (checkDb insertDb : DB) (body : CredBody) (salt : Nat) :
    HttpResponse × DB :=
  match userSchemaParse body with
  | .error _ => (⟨500, [("error", .str "Registration failed")]⟩, insertDb)
  | .ok (email, password) =>
      let hashed := bcryptHash password salt
      if (usersFindByEmail checkDb email).length > 0 then
        (⟨409, [("error", .str "Email already exists")]⟩, insertDb)
      else
        match usersInsert insertDb email hashed with
        | .ok db2 => (⟨201, [("message", .str "User registered successfully")]⟩, db2)
        | .error _ => (⟨500, [("error", .str "Registration failed")]⟩, insertDb)

/-! ### POST /login -/

/-- The `POST /login` handler (source lines 94-137): parse the body, look
the email up, compare the password against the stored digest; both the
absent-email case and the wrong-password case answer 401
`{error: "Invalid credentials"}`; on success a 1-hour token for
`user.id` is signed at the current clock. -/
def loginHandler (db : DB) (body : CredBody) (secret : String) (now : Nat) :
    HttpResponse :=
  match loginSchemaParse body with
  | .error issues =>
      ⟨400, [("error", .str "Validation error"), ("details", .issues issues)]⟩
  | .ok (email, password) =>
      match usersFindByEmail db email with
      | [] => ⟨401, [("error", .str "Invalid credentials")]⟩
      | user :: _ =>
          if bcryptCompare password user.password then
            ⟨200, [("token", .str (tokenString (jwtSign user.id secret now)))]⟩
          else
            ⟨401, [("error", .str "Invalid credentials")]⟩

/-! ### Employee routes -/

/-- The value of a decimal digit character, if it is one. -/
def charDigit (c : Char) : Option Nat :=
  if 48 ≤ c.toNat ∧ c.toNat ≤ 57 then some (c.toNat - 48) else none

/-- Accumulate the decimal value of a digit list; `none` on any
non-digit. -/
def natOfDigits : List Char → Nat → Option Nat
  | [], acc => some acc
  | c :: cs, acc =>
      match charDigit c with
      | some d => natOfDigits cs (acc * 10 + d)
      | none => none

/-- The numeric value of a non-empty all-digit decimal string. -/
def strToNat (s : String) : Option Nat :=
  match s.data with
  | [] => none
  | cs => natOfDigits cs 0

/-- The parameter-bound comparison `WHERE id = ?` with the raw
`req.params.id` string against the INT column: MySQL coerces the string
to a number; a string that is not a decimal numeral is modelled as
matching no row. -/
def idMatches (idStr : String) (id : Nat) : Bool :=
  match strToNat idStr with
  | some n => id == n
  | none => false

/-- `SELECT * FROM employees WHERE id = ?`. -/
def employeesSelectById (db : DB) (idStr : String) : List EmployeeRow :=
  db.employees.filter (fun e => idMatches idStr e.id)

/-- `INSERT INTO employees (name, position) VALUES (?, ?)`: returns
`insertId` and the successor state. -/
def employeesInsert (db : DB) (name position : String) : Nat × DB :=
  (db.nextEmployeeId,
   { db with
     employees := db.employees ++ [⟨db.nextEmployeeId, name, position⟩],
     nextEmployeeId := db.nextEmployeeId + 1 })

/-- `UPDATE employees SET name = ?, position = ? WHERE id = ?`: returns
`affectedRows` — the driver connects with the FOUND_ROWS capability, so
this counts the rows matched by the WHERE clause — and the successor
state. -/
def employeesUpdate (db : DB) (idStr : String) (name position : String) :
    Nat × DB :=
  ((db.employees.filter (fun e => idMatches idStr e.id)).length,
   { db with
     employees := db.employees.map
       (fun e => if idMatches idStr e.id then ⟨e.id, name, position⟩ else e) })

/-- `DELETE FROM employees WHERE id = ?`: returns `affectedRows` and the
successor state. -/
def employeesDelete (db : DB) (idStr : String) : Nat × DB :=
  ((db.employees.filter (fun e => idMatches idStr e.id)).length,
   { db with
     employees := db.employees.filter (fun e => ¬ idMatches idStr e.id) })

/-- The `POST /employees` handler (source lines 170-194), behind
`authenticate`.  A `ZodError` is answered 400 with the issue list; any
other throw — in particular a rejected insert — falls to the final line
`res.status(400).json({error: message})`, exposing the thrown error's
message with status 400. -/
def postEmployees (db : DB) (header : Option TokenCandidate) (secret : String)
    (now : Nat) (body : EmployeeBody) (storage : StorageOutcome) :
    HttpResponse × DB :=
  match authenticate header secret now with
  | .denied r => (r, db)
  | .granted _ =>
      match employeeSchemaParse body with
      | .error issues =>
          (⟨400, [("error", .str "Validation failed"), ("details", .issues issues)]⟩, db)
      | .ok (name, position) =>
          match storage with
          | .fail msg => (⟨400, [("error", .str msg)]⟩, db)
          | .ok =>
              let (newId, db2) := employeesInsert db name position
              (⟨201, [("id", .num newId), ("name", .str name),
                      ("position", .str position)]⟩, db2)

/-- The `GET /employees` handler (source lines 197-205): on a rejected
query the thrown error's message is placed in a 500 body. -/
def getAllEmployees (db : DB) (storage : StorageOutcome) : HttpResponse :=
  match storage with
  | .fail msg => ⟨500, [("error", .str msg)]⟩
  | .ok => ⟨200, [("rows", .rows db.employees)]⟩

/-- The `GET /employees/:id` handler (source lines 208-224): 404 when the
row list is empty, otherwise the first row; on a rejected query the thrown
error's message is placed in a 500 body. -/
def getEmployeeById (db : DB) (idStr : String) (storage : StorageOutcome) :
    HttpResponse :=
  match storage with
  | .fail msg => ⟨500, [("error", .str msg)]⟩
  | .ok =>
      match employeesSelectById db idStr with
      | [] => ⟨404, [("error", .str "Employee not found")]⟩
      | e :: _ =>
          ⟨200, [("id", .num e.id), ("name", .str e.name),
                 ("position", .str e.position)]⟩

/-- The `PUT /employees/:id` handler (source lines 227-254), behind
`authenticate`: validate, run the UPDATE, 404 when `affectedRows` is 0,
otherwise answer with `{id: req.params.id, ...validatedData}` — the `id`
field echoes the raw path-parameter string.  A non-Zod throw falls to
`res.status(400).json({error: message})`. -/
def putEmployee (db : DB) (header : Option TokenCandidate) (secret : String)
    (now : Nat) (idStr : String) (body : EmployeeBody)
    (storage : StorageOutcome) : HttpResponse × DB :=
  match authenticate header secret now with
  | .denied r => (r, db)
  | .granted _ =>
      match employeeSchemaParse body with
      | .error issues =>
          (⟨400, [("error", .str "Validation failed"), ("details", .issues issues)]⟩, db)
      | .ok (name, position) =>
          match storage with
          | .fail msg => (⟨400, [("error", .str msg)]⟩, db)
          | .ok =>
              let (affected, db2) := employeesUpdate db idStr name position
              if affected = 0 then
                (⟨404, [("error", .str "Employee not found")]⟩, db2)
              else
                (⟨200, [("id", .str idStr), ("name", .str name),
                        ("position", .str position)]⟩, db2)

/-- The `DELETE /employees/:id` handler (source lines 257-273), behind
`authenticate`: 404 when `affectedRows` is 0; on a rejected query the
thrown error's message is placed in a 500 body. -/
def deleteEmployee (db : DB) (header : Option TokenCandidate) (secret : String)
    (now : Nat) (idStr : String) (storage : StorageOutcome) :
    HttpResponse × DB :=
  match authenticate header secret now with
  | .denied r => (r, db)
  | .granted _ =>
      match storage with
      | .fail msg => (⟨500, [("error", .str msg)]⟩, db)
      | .ok =>
          let (affected, db2) := employeesDelete db idStr
          if affected = 0 then
            (⟨404, [("error", .str "Employee not found")]⟩, db2)
          else
            (⟨200, [("message", .str "Employee deleted successfully")]⟩, db2)

/-! ## Shared lemmas -/

/-- A well-formed token signed with the process secret and not yet at its
expiry passes `authenticate`, granting access as its `userId` claim. -/
theorem authenticate_granted (t : Token) (secret : String) (now : Nat)
    (hsig : t.sig = secret) (hnow : now < t.exp) :
    authenticate (some (.wellFormed t)) secret now = .granted t.userId := by
  simp [authenticate, jwtVerify, hsig, Nat.not_le.mpr hnow]

/-- A body with both strings of length at least 2 passes the employee
schema. -/
theorem employeeSchemaParse_ok (name position : String)
    (hn : 2 ≤ name.length) (hp : 2 ≤ position.length) :
    employeeSchemaParse ⟨some name, some position⟩ = .ok (name, position) := by
  simp [employeeSchemaParse, employeeIssues, checkStringMin,
    Nat.not_lt.mpr hn, Nat.not_lt.mpr hp]

/-- A failed employee parse reports exactly the accumulated issue list. -/
theorem employeeSchemaParse_error (b : EmployeeBody) (issues : List ZodIssue)
    (h : employeeSchemaParse b = .error issues) : issues = employeeIssues b := by
  rcases b with ⟨n?, p?⟩
  cases n? <;> cases p? <;>
    simp only [employeeSchemaParse] at h <;>
    first
      | (split at h <;> simp_all)
      | simp_all

/-- When some stored row matches the id parameter, the matched-row count
of the UPDATE is nonzero. -/
theorem filter_idMatches_ne_nil (db : DB) (idStr : String)
    (hpresent : db.employees.any (fun e => idMatches idStr e.id) = true) :
    (db.employees.filter (fun e => idMatches idStr e.id)).length ≠ 0 := by
  intro hlen
  rw [List.length_eq_zero, List.filter_eq_nil_iff] at hlen
  rcases List.any_eq_true.mp hpresent with ⟨e, he, hm⟩
  exact hlen e he hm

/-- When no stored row matches the id parameter, the matched-row count of
the UPDATE is zero. -/
theorem filter_idMatches_nil (db : DB) (idStr : String)
    (habsent : db.employees.any (fun e => idMatches idStr e.id) = false) :
    (db.employees.filter (fun e => idMatches idStr e.id)).length = 0 := by
  rw [List.length_eq_zero, List.filter_eq_nil_iff]
  intro e he hm
  have : db.employees.any (fun e => idMatches idStr e.id) = true :=
    List.any_eq_true.mpr ⟨e, he, hm⟩
  simp [habsent] at this

/-- Authenticated `PUT /employees/:id` with a valid body and a matching
row: 200, the body echoing the raw id string, and the row replaced. -/
theorem putEmployee_found (db : DB) (t : Token) (secret : String) (now : Nat)
    (idStr name position : String)
    (hsig : t.sig = secret) (hnow : now < t.exp)
    (hn : 2 ≤ name.length) (hp : 2 ≤ position.length)
    (hpresent : db.employees.any (fun e => idMatches idStr e.id) = true) :
    putEmployee db (some (.wellFormed t)) secret now idStr
        ⟨some name, some position⟩ .ok =
      (⟨200, [("id", .str idStr), ("name", .str name), ("position", .str position)]⟩,
       (employeesUpdate db idStr name position).2) := by
  have hlen := filter_idMatches_ne_nil db idStr hpresent
  simp only [putEmployee, authenticate_granted t secret now hsig hnow,
    employeeSchemaParse_ok name position hn hp, employeesUpdate]
  simp [hlen]

/-- Authenticated `PUT /employees/:id` with a valid body and no matching
row: 404. -/
theorem putEmployee_notFound (db : DB) (t : Token) (secret : String) (now : Nat)
    (idStr name position : String)
    (hsig : t.sig = secret) (hnow : now < t.exp)
    (hn : 2 ≤ name.length) (hp : 2 ≤ position.length)
    (habsent : db.employees.any (fun e => idMatches idStr e.id) = false) :
    (putEmployee db (some (.wellFormed t)) secret now idStr
        ⟨some name, some position⟩ .ok).1 =
      ⟨404, [("error", .str "Employee not found")]⟩ := by
  have hlen := filter_idMatches_nil db idStr habsent
  simp only [putEmployee, authenticate_granted t secret now hsig hnow,
    employeeSchemaParse_ok name position hn hp, employeesUpdate]
  simp [hlen]

/-- Authenticated `POST /employees` with a valid body: 201 with the
assigned numeric id, and the row appended. -/
theorem postEmployees_ok (db : DB) (t : Token) (secret : String) (now : Nat)
    (name position : String) (hsig : t.sig = secret) (hnow : now < t.exp)
    (hn : 2 ≤ name.length) (hp : 2 ≤ position.length) :
    postEmployees db (some (.wellFormed t)) secret now
        ⟨some name, some position⟩ .ok =
      (⟨201, [("id", .num db.nextEmployeeId), ("name", .str name),
              ("position", .str position)]⟩,
       (employeesInsert db name position).2) := by
  simp [postEmployees, authenticate_granted t secret now hsig hnow,
    employeeSchemaParse_ok name position hn hp, employeesInsert]

/-! ## Claims -/

/-- C1 (counterexample): the register body `{email: "a@b.com", password:
"123"}` fails credential validation (password shorter than 6), yet the
response is 500 "Registration failed", not 400: the register handler's
catch block has no `ZodError` branch. -/
theorem register_invalid_body_not_400 :
    userSchemaParse ⟨some "a@b.com", some "123"⟩ =
      .error [⟨"password", "String must contain at least 6 character(s)"⟩] ∧
    (registerHandler emptyDB emptyDB ⟨some "a@b.com", some "123"⟩ 7).1.status = 500 ∧
    (registerHandler emptyDB emptyDB ⟨some "a@b.com", some "123"⟩ 7).1.status ≠ 400 := by
  decide

/-- C1 (amended): for every POST /register request whose body fails
credential validation, the response is 500 `{error: "Registration
failed"}` — not 400 — and the store is unchanged. -/
theorem register_invalid_body_500 (checkDb insertDb : DB) (body : CredBody)
    (salt : Nat) (issues : List ZodIssue)
    (h : userSchemaParse body = .error issues) :
    registerHandler checkDb insertDb body salt =
      (⟨500, [("error", .str "Registration failed")]⟩, insertDb) := by
  simp only [registerHandler, h]

/-- Witness for `register_invalid_body_500` at the short-password body. -/
theorem register_invalid_body_500_witness :
    registerHandler emptyDB emptyDB ⟨some "a@b.com", some "123"⟩ 7 =
      (⟨500, [("error", .str "Registration failed")]⟩, emptyDB) :=
  register_invalid_body_500 emptyDB emptyDB ⟨some "a@b.com", some "123"⟩ 7
    [⟨"password", "String must contain at least 6 character(s)"⟩] (by decide)

/-- C2 (counterexample): a token with a wrong signature verifies to
`invalid` and an expired token verifies to `expired`, yet `authenticate`
answers both with status 400 "Invalid token", not 401; 401 is reserved
for the missing-token case. -/
theorem failed_verification_not_401 :
    jwtVerify (.wellFormed ⟨7, 0, 3600, "secret"⟩) "other" 0 = .invalid ∧
    authenticate (some (.wellFormed ⟨7, 0, 3600, "secret"⟩)) "other" 0 =
      .denied ⟨400, [("error", .str "Invalid token")]⟩ ∧
    jwtVerify (.wellFormed ⟨7, 0, 3600, "secret"⟩) "secret" 5000 = .expired ∧
    authenticate (some (.wellFormed ⟨7, 0, 3600, "secret"⟩)) "secret" 5000 =
      .denied ⟨400, [("error", .str "Invalid token")]⟩ := by
  decide

/-- C2 (amended): every request to a protected route carrying a token
that fails verification — invalid signature and expired alike — is
answered with status 400 `{error: "Invalid token"}`; the Invalid/Expired
distinction exists only internally, and 401 is the missing-token
response. -/
theorem failed_verification_400 (c : TokenCandidate) (secret : String)
    (now : Nat)
    (h : jwtVerify c secret now = .invalid ∨ jwtVerify c secret now = .expired) :
    authenticate (some c) secret now =
      .denied ⟨400, [("error", .str "Invalid token")]⟩ := by
  rcases h with h | h <;> simp [authenticate, h]

/-- Witness for `failed_verification_400` at an expired token. -/
theorem failed_verification_400_witness :
    authenticate (some (.wellFormed ⟨7, 0, 3600, "k"⟩)) "k" 9999 =
      .denied ⟨400, [("error", .str "Invalid token")]⟩ :=
  failed_verification_400 (.wellFormed ⟨7, 0, 3600, "k"⟩) "k" 9999
    (Or.inr (by decide))

/-- C8: a token issued by `issue(subjectId)` at clock `iat` verifies to
that same subject at any time strictly before `iat` + 1 hour, and
verifies to `Expired` at any time after `iat` + 1 hour. -/
theorem issue_verify_roundtrip (userId : Nat) (secret : String) (iat now : Nat) :
    (now < iat + 3600 →
      jwtVerify (.wellFormed (jwtSign userId secret iat)) secret now =
        .valid userId) ∧
    (iat + 3600 < now →
      jwtVerify (.wellFormed (jwtSign userId secret iat)) secret now =
        .expired) := by
  constructor <;> intro h <;>
    simp [jwtVerify, jwtSign] <;> omega

/-- Witness for `issue_verify_roundtrip` just before and just after the
expiry of a token issued at 100. -/
theorem issue_verify_roundtrip_witness :
    jwtVerify (.wellFormed (jwtSign 7 "k" 100)) "k" 3699 = .valid 7 ∧
    jwtVerify (.wellFormed (jwtSign 7 "k" 100)) "k" 3701 = .expired :=
  ⟨(issue_verify_roundtrip 7 "k" 100 3699).1 (by decide),
   (issue_verify_roundtrip 7 "k" 100 3701).2 (by decide)⟩

/-- C4 (counterexample): a registration whose pre-insert check saw no
duplicate but whose insert hits the email-uniqueness constraint (the
losing side of a concurrent duplicate registration) is answered 500
"Registration failed", not 409: the insert's rejection lands in the
catch-all. -/
theorem register_losing_insert_not_409 :
    usersFindByEmail emptyDB "a@b.com" = [] ∧
    registerHandler emptyDB ⟨[⟨1, "a@b.com", ⟨3, "pw1234"⟩⟩], 2, [], 1⟩
        ⟨some "a@b.com", some "secret1"⟩ 7 =
      (⟨500, [("error", .str "Registration failed")]⟩,
       ⟨[⟨1, "a@b.com", ⟨3, "pw1234"⟩⟩], 2, [], 1⟩) ∧
    (registerHandler emptyDB ⟨[⟨1, "a@b.com", ⟨3, "pw1234"⟩⟩], 2, [], 1⟩
        ⟨some "a@b.com", some "secret1"⟩ 7).1.status ≠ 409 := by
  decide

/-- C4 (amended): when the pre-insert existence check passes but the
insert itself violates the store's email-uniqueness constraint, the
response is the generic 500 "Registration failed"; 409 Conflict is
produced only when the pre-insert check itself finds the email. -/
theorem register_losing_insert_500 (checkDb insertDb : DB) (body : CredBody)
    (salt : Nat) (email password : String)
    (hparse : userSchemaParse body = .ok (email, password))
    (hcheck : usersFindByEmail checkDb email = [])
    (hdup : insertDb.users.any (fun u => u.email == email) = true) :
    registerHandler checkDb insertDb body salt =
      (⟨500, [("error", .str "Registration failed")]⟩, insertDb) := by
  simp [registerHandler, hparse, hcheck, usersInsert, hdup]

/-- Witness for `register_losing_insert_500`: empty check-time state, one
concurrent duplicate present at insert time. -/
theorem register_losing_insert_500_witness :
    registerHandler emptyDB ⟨[⟨1, "a@b.com", ⟨3, "pw1234"⟩⟩], 2, [], 1⟩
        ⟨some "a@b.com", some "secret1"⟩ 7 =
      (⟨500, [("error", .str "Registration failed")]⟩,
       ⟨[⟨1, "a@b.com", ⟨3, "pw1234"⟩⟩], 2, [], 1⟩) :=
  register_losing_insert_500 emptyDB ⟨[⟨1, "a@b.com", ⟨3, "pw1234"⟩⟩], 2, [], 1⟩
    ⟨some "a@b.com", some "secret1"⟩ 7 "a@b.com" "secret1"
    (by decide) (by decide) (by decide)

/-- C3: authenticated `replace(id, name, position)` with a valid body
succeeds with 200 and the updated record whenever some stored row has
that id — in particular when the new values equal the stored ones — and
reports 404 NotFound exactly when no row with that id exists. -/
theorem replace_found_iff (db : DB) (t : Token) (secret : String) (now : Nat)
    (idStr name position : String)
    (hsig : t.sig = secret) (hnow : now < t.exp)
    (hn : 2 ≤ name.length) (hp : 2 ≤ position.length) :
    (db.employees.any (fun e => idMatches idStr e.id) = true →
      putEmployee db (some (.wellFormed t)) secret now idStr
          ⟨some name, some position⟩ .ok =
        (⟨200, [("id", .str idStr), ("name", .str name),
                ("position", .str position)]⟩,
         (employeesUpdate db idStr name position).2)) ∧
    (db.employees.any (fun e => idMatches idStr e.id) = false →
      (putEmployee db (some (.wellFormed t)) secret now idStr
          ⟨some name, some position⟩ .ok).1 =
        ⟨404, [("error", .str "Employee not found")]⟩) :=
  ⟨fun hpresent =>
    putEmployee_found db t secret now idStr name position hsig hnow hn hp hpresent,
   fun habsent =>
    putEmployee_notFound db t secret now idStr name position hsig hnow hn hp habsent⟩

/-- Witness for `replace_found_iff`: replacing the stored record with its
own values (the idempotent case) succeeds with 200. -/
theorem replace_found_iff_witness :
    putEmployee ⟨[], 1, [⟨1, "Jo", "Eng"⟩], 2⟩
        (some (.wellFormed ⟨5, 0, 3600, "k"⟩)) "k" 0 "1"
        ⟨some "Jo", some "Eng"⟩ .ok =
      (⟨200, [("id", .str "1"), ("name", .str "Jo"), ("position", .str "Eng")]⟩,
       (employeesUpdate ⟨[], 1, [⟨1, "Jo", "Eng"⟩], 2⟩ "1" "Jo" "Eng").2) :=
  (replace_found_iff ⟨[], 1, [⟨1, "Jo", "Eng"⟩], 2⟩ ⟨5, 0, 3600, "k"⟩ "k" 0 "1"
      "Jo" "Eng" (by decide) (by decide) (by decide) (by decide)).1 (by decide)

/-- C10: a successful PUT answers with an `id` field equal to the raw
path-parameter string, a successful POST answers with the numeric
store-assigned id, and a string JSON value is never a numeric one. -/
theorem update_id_is_string (db : DB) (t : Token) (secret : String) (now : Nat)
    (idStr name position : String)
    (hsig : t.sig = secret) (hnow : now < t.exp)
    (hn : 2 ≤ name.length) (hp : 2 ≤ position.length)
    (hpresent : db.employees.any (fun e => idMatches idStr e.id) = true) :
    (putEmployee db (some (.wellFormed t)) secret now idStr
        ⟨some name, some position⟩ .ok).1.body.head? =
      some ("id", .str idStr) ∧
    (postEmployees db (some (.wellFormed t)) secret now
        ⟨some name, some position⟩ .ok).1.body.head? =
      some ("id", .num db.nextEmployeeId) ∧
    ∀ s n, JVal.str s ≠ JVal.num n := by
  refine ⟨?_, ?_, ?_⟩
  · rw [putEmployee_found db t secret now idStr name position hsig hnow hn hp hpresent]
    rfl
  · rw [postEmployees_ok db t secret now name position hsig hnow hn hp]
    rfl
  · intro s n h
    cases h

/-- Witness for `update_id_is_string` at a one-row store. -/
theorem update_id_is_string_witness :
    (putEmployee ⟨[], 1, [⟨1, "Jo", "Eng"⟩], 2⟩
        (some (.wellFormed ⟨5, 0, 3600, "k"⟩)) "k" 0 "1"
        ⟨some "Al", some "Dev"⟩ .ok).1.body.head? =
      some ("id", .str "1") :=
  (update_id_is_string ⟨[], 1, [⟨1, "Jo", "Eng"⟩], 2⟩ ⟨5, 0, 3600, "k"⟩ "k" 0 "1"
      "Al" "Dev" (by decide) (by decide) (by decide) (by decide) (by decide)).1

/-- C7: authenticated `create(name, position)` with both lengths at least
2 answers 201 with the assigned id, and a subsequent `getById` on that id
answers 200 with a record equal to the one `create` returned.  `hfresh`
is the auto-increment invariant: no stored row already carries the
counter's next value. -/
theorem create_then_get_roundtrip (db : DB) (t : Token) (secret : String)
    (now : Nat) (name position idStr : String)
    (hsig : t.sig = secret) (hnow : now < t.exp)
    (hn : 2 ≤ name.length) (hp : 2 ≤ position.length)
    (hid : strToNat idStr = some db.nextEmployeeId)
    (hfresh : ∀ e ∈ db.employees, e.id < db.nextEmployeeId) :
    (postEmployees db (some (.wellFormed t)) secret now
        ⟨some name, some position⟩ .ok).1.body =
      [("id", .num db.nextEmployeeId), ("name", .str name),
       ("position", .str position)] ∧
    getEmployeeById
        (postEmployees db (some (.wellFormed t)) secret now
          ⟨some name, some position⟩ .ok).2 idStr .ok =
      ⟨200, [("id", .num db.nextEmployeeId), ("name", .str name),
             ("position", .str position)]⟩ := by
  rw [postEmployees_ok db t secret now name position hsig hnow hn hp]
  refine ⟨rfl, ?_⟩
  have hsel : employeesSelectById (employeesInsert db name position).2 idStr =
      [⟨db.nextEmployeeId, name, position⟩] := by
    show (db.employees ++ [(⟨db.nextEmployeeId, name, position⟩ : EmployeeRow)]).filter
        (fun e => idMatches idStr e.id) = [⟨db.nextEmployeeId, name, position⟩]
    rw [List.filter_append]
    have h1 : db.employees.filter (fun e => idMatches idStr e.id) = [] := by
      rw [List.filter_eq_nil_iff]
      intro e he
      have hlt := hfresh e he
      simp [idMatches, hid]
      omega
    rw [h1]
    simp [idMatches, hid]
  simp [getEmployeeById, hsel]

/-- Witness for `create_then_get_roundtrip` on the empty store. -/
theorem create_then_get_roundtrip_witness :
    (postEmployees emptyDB (some (.wellFormed ⟨5, 0, 3600, "k"⟩)) "k" 0
        ⟨some "Jo", some "Eng"⟩ .ok).1.body =
      [("id", .num 1), ("name", .str "Jo"), ("position", .str "Eng")] ∧
    getEmployeeById
        (postEmployees emptyDB (some (.wellFormed ⟨5, 0, 3600, "k"⟩)) "k" 0
          ⟨some "Jo", some "Eng"⟩ .ok).2 "1" .ok =
      ⟨200, [("id", .num 1), ("name", .str "Jo"), ("position", .str "Eng")]⟩ :=
  create_then_get_roundtrip emptyDB ⟨5, 0, 3600, "k"⟩ "k" 0 "Jo" "Eng" "1"
    (by decide) (by decide) (by decide) (by decide) (by decide) (by simp [emptyDB])

/-- C5 (counterexample): on a storage failure, `GET /employees/:id`
places the thrown error's raw message in its 500 body, and
`POST /employees` maps the failure to status 400 with the same raw
message. -/
theorem storage_failure_leaks_detail :
    getEmployeeById emptyDB "1" (.fail "connect ECONNREFUSED 127.0.0.1:3306") =
      ⟨500, [("error", .str "connect ECONNREFUSED 127.0.0.1:3306")]⟩ ∧
    (postEmployees emptyDB (some (.wellFormed ⟨1, 0, 3600, "k"⟩)) "k" 0
        ⟨some "Jo", some "Eng"⟩ (.fail "connect ECONNREFUSED 127.0.0.1:3306")).1 =
      ⟨400, [("error", .str "connect ECONNREFUSED 127.0.0.1:3306")]⟩ := by
  decide

/-- C5 (amended): on a storage failure the employee routes place the
underlying error's message in the response body: the GET routes and
DELETE answer 500 with that message, while POST and PUT answer 400 with
that message. -/
theorem storage_failure_actual (db : DB) (msg : String) (t : Token)
    (secret : String) (now : Nat) (idStr name position : String)
    (hsig : t.sig = secret) (hnow : now < t.exp)
    (hn : 2 ≤ name.length) (hp : 2 ≤ position.length) :
    getAllEmployees db (.fail msg) = ⟨500, [("error", .str msg)]⟩ ∧
    getEmployeeById db idStr (.fail msg) = ⟨500, [("error", .str msg)]⟩ ∧
    postEmployees db (some (.wellFormed t)) secret now
        ⟨some name, some position⟩ (.fail msg) =
      (⟨400, [("error", .str msg)]⟩, db) ∧
    putEmployee db (some (.wellFormed t)) secret now idStr
        ⟨some name, some position⟩ (.fail msg) =
      (⟨400, [("error", .str msg)]⟩, db) ∧
    deleteEmployee db (some (.wellFormed t)) secret now idStr (.fail msg) =
      (⟨500, [("error", .str msg)]⟩, db) := by
  refine ⟨rfl, rfl, ?_, ?_, ?_⟩ <;>
    simp [postEmployees, putEmployee, deleteEmployee,
      authenticate_granted t secret now hsig hnow,
      employeeSchemaParse_ok name position hn hp]

/-- Witness for `storage_failure_actual` at a failing POST. -/
theorem storage_failure_actual_witness :
    postEmployees emptyDB (some (.wellFormed ⟨1, 0, 3600, "k"⟩)) "k" 0
        ⟨some "Jo", some "Eng"⟩ (.fail "boom") =
      (⟨400, [("error", .str "boom")]⟩, emptyDB) :=
  (storage_failure_actual emptyDB "boom" ⟨1, 0, 3600, "k"⟩ "k" 0 "1" "Jo" "Eng"
    (by decide) (by decide) (by decide) (by decide)).2.2.1

/-- Whether the `name` field violates its schema rule (missing or shorter
than 2). -/
def violatesName (b : EmployeeBody) : Bool :=
  match b.name with
  | none => true
  | some s => decide (s.length < 2)

/-- Whether the `position` field violates its schema rule. -/
def violatesPosition (b : EmployeeBody) : Bool :=
  match b.position with
  | none => true
  | some s => decide (s.length < 2)

/-- Whether the issue list carries an entry for the given field. -/
def hasIssueAt (issues : List ZodIssue) (field : String) : Bool :=
  issues.any (fun i => i.path == field)

/-- A violated `name` field always contributes an issue to the
accumulated list. -/
theorem name_issue_listed (b : EmployeeBody) (h : violatesName b = true) :
    hasIssueAt (employeeIssues b) "name" = true := by
  rcases b with ⟨n?, p?⟩
  cases n? <;>
    simp_all [violatesName, employeeIssues, checkStringMin, hasIssueAt]

/-- A violated `position` field always contributes an issue to the
accumulated list. -/
theorem position_issue_listed (b : EmployeeBody) (h : violatesPosition b = true) :
    hasIssueAt (employeeIssues b) "position" = true := by
  rcases b with ⟨n?, p?⟩
  cases p? <;>
    simp_all [violatesPosition, employeeIssues, checkStringMin, hasIssueAt]

/-- C6: an authenticated PUT whose body fails employee validation is
answered 400 with a `details` list that accumulates an issue for every
violated field — not just the first — and the stored rows are
unchanged. -/
theorem put_invalid_body_400 (db : DB) (t : Token) (secret : String)
    (now : Nat) (idStr : String) (body : EmployeeBody)
    (issues : List ZodIssue) (storage : StorageOutcome)
    (hsig : t.sig = secret) (hnow : now < t.exp)
    (hparse : employeeSchemaParse body = .error issues) :
    putEmployee db (some (.wellFormed t)) secret now idStr body storage =
      (⟨400, [("error", .str "Validation failed"),
              ("details", .issues issues)]⟩, db) ∧
    issues = employeeIssues body ∧
    (violatesName body = true → hasIssueAt issues "name" = true) ∧
    (violatesPosition body = true → hasIssueAt issues "position" = true) := by
  have hiss := employeeSchemaParse_error body issues hparse
  subst hiss
  refine ⟨?_, rfl, name_issue_listed body, position_issue_listed body⟩
  simp [putEmployee, authenticate_granted t secret now hsig hnow, hparse]

/-- Witness for `put_invalid_body_400` at the spec's example body
`{name: "A", position: "Eng"}`. -/
theorem put_invalid_body_400_witness :
    putEmployee ⟨[], 1, [⟨1, "Jo", "Eng"⟩], 2⟩
        (some (.wellFormed ⟨5, 0, 3600, "k"⟩)) "k" 0 "1"
        ⟨some "A", some "Eng"⟩ .ok =
      (⟨400, [("error", .str "Validation failed"),
              ("details", .issues [⟨"name", "Name must be at least 2 characters"⟩])]⟩,
       ⟨[], 1, [⟨1, "Jo", "Eng"⟩], 2⟩) :=
  (put_invalid_body_400 ⟨[], 1, [⟨1, "Jo", "Eng"⟩], 2⟩ ⟨5, 0, 3600, "k"⟩ "k" 0 "1"
      ⟨some "A", some "Eng"⟩ [⟨"name", "Name must be at least 2 characters"⟩] .ok
      (by decide) (by decide) (by decide)).1

/-- The email has no row in the credential store. -/
def emailAbsent (db : DB) (email : String) : Prop :=
  usersFindByEmail db email = []

/-- The email has a row but the supplied password does not match its
stored digest. -/
def wrongPassword (db : DB) (email password : String) : Prop :=
  ∃ u l, usersFindByEmail db email = u :: l ∧
    bcryptCompare password u.password = false

/-- C9: for a syntactically valid login body, the response when the email
is absent from the credential store and the response when the email is
present with a non-matching password are the identical 401
`{error: "Invalid credentials"}` — the login endpoint does not reveal
whether an email is registered. -/
theorem login_no_account_probe (db₁ db₂ : DB) (body : CredBody)
    (email password secret : String) (now : Nat)
    (hp : loginSchemaParse body = .ok (email, password))
    (h1 : emailAbsent db₁ email)
    (h2 : wrongPassword db₂ email password) :
    loginHandler db₁ body secret now = loginHandler db₂ body secret now ∧
    loginHandler db₁ body secret now =
      ⟨401, [("error", .str "Invalid credentials")]⟩ := by
  rcases h2 with ⟨u, l, hfind, hcmp⟩
  have h1' : usersFindByEmail db₁ email = [] := h1
  have e1 : loginHandler db₁ body secret now =
      ⟨401, [("error", .str "Invalid credentials")]⟩ := by
    simp [loginHandler, hp, h1']
  have e2 : loginHandler db₂ body secret now =
      ⟨401, [("error", .str "Invalid credentials")]⟩ := by
    simp [loginHandler, hp, hfind, hcmp]
  exact ⟨e1.trans e2.symm, e1⟩

/-- Witness for `login_no_account_probe`: an unregistered email versus a
registered email with the wrong password. -/
theorem login_no_account_probe_witness :
    loginHandler emptyDB ⟨some "a@b.com", some "wrong1"⟩ "k" 0 =
      loginHandler ⟨[⟨1, "a@b.com", ⟨3, "right1"⟩⟩], 2, [], 1⟩
        ⟨some "a@b.com", some "wrong1"⟩ "k" 0 ∧
    loginHandler emptyDB ⟨some "a@b.com", some "wrong1"⟩ "k" 0 =
      ⟨401, [("error", .str "Invalid credentials")]⟩ :=
  login_no_account_probe emptyDB ⟨[⟨1, "a@b.com", ⟨3, "right1"⟩⟩], 2, [], 1⟩
    ⟨some "a@b.com", some "wrong1"⟩ "a@b.com" "wrong1" "k" 0
    (by decide) (show usersFindByEmail emptyDB "a@b.com" = [] by decide)
    ⟨⟨1, "a@b.com", ⟨3, "right1"⟩⟩, [], by decide, by decide⟩

end EmployeeMS
